import Mathlib

/-
Verification of the cat-facts service (src/main.rs) against its design
specification.  The Rust source is shallowly embedded: the store and the
SMTP transport are external collaborators, so they appear as explicit
parameters (query results, a per-address parse predicate for the lettre
mailbox parser, and a per-address send-success predicate).  A Rust panic
(`unwrap` / `expect` / out-of-bounds indexing) is modelled as an explicit
`panicked` outcome, distinct from an `Err` return.
-/

namespace CatFacts

/-- Outcome of one call to `send_subscriber_mail` as seen by its caller:
normal return `Ok(())`, an error return (`anyhow::Error` text), or a panic
raised inside the function body. -/
inductive CycleOutcome where
  | ok : CycleOutcome
  | err : String → CycleOutcome
  | panicked : String → CycleOutcome
deriving DecidableEq

/-- Environment of one dispatch cycle: the two store query results (rows of
the single selected column, an `Err` modelling a failed query), whether a
given string is accepted by the lettre mailbox parser, and whether
`mailer.send` succeeds for a given recipient. -/
structure MailEnv where
  factQuery : Except String (List String)
  subQuery : Except String (List String)
  parses : String → Bool
  sendOk : String → Bool

/-- The fixed sender string handed to the mailbox parser by
`Message::builder().from("Cat Facts".parse().unwrap())`. -/
def fromAddress : String := "Cat Facts"

/-- The lettre `Mailbox` parser as this program exercises it (a model of
the external `lettre` collaborator): a parsed mailbox needs an address
part containing an `@` (`user@host`, or `Name <user@host>`), so subscriber
addresses parse exactly when they contain an `@`, and the hard-coded bare
display name `"Cat Facts"` (no `@`) is rejected. -/
def lettreParses (s : String) : Bool := s.data.any (fun c => c == ('@'))

/-- Panic message used to model an `unwrap()` on a failed mailbox parse. -/
def addrParsePanic (r : String) : String :=
  String.append ("called unwrap on a mailbox parse failure: ") r

/-- Panic message used to model indexing `rows[0]` on an empty result set. -/
def rowIndexPanic : String := "index out of bounds: the len is 0 but the index is 0"

/-- The per-recipient send loop of `send_subscriber_mail` (src/main.rs
lines 252-265).  For each subscriber row it parses the fixed sender and the
recipient address (each `.parse().unwrap()` panics on failure, aborting the
whole loop), then calls `mailer.send`; a send error is only printed and the
loop continues.  Returns the outcome together with the trace of attempted
sends (recipient, send succeeded). -/
def sendLoop (parses sendOk : String → Bool) : List String → CycleOutcome × List (String × Bool)
  | [] => (CycleOutcome.ok, [])
  | r :: rest =>
    if parses fromAddress then
      if parses r then
        let res := sendLoop parses sendOk rest
        (res.1, (r, sendOk r) :: res.2)
      else (CycleOutcome.panicked (addrParsePanic r), [])
    else (CycleOutcome.panicked (addrParsePanic fromAddress), [])

/-- `send_subscriber_mail` (src/main.rs lines 232-269): fetch one random
fact (`Err` on query failure; `rows[0]` panics when the table is empty),
fetch all subscriber emails (`Err` on query failure), then run the send
loop (the `rows.len() > 0` guard makes the empty list a no-op, matching
`sendLoop` on `[]`).  Returns the outcome plus the trace of send attempts. -/
def send_subscriber_mail (env : MailEnv) : CycleOutcome × List (String × Bool) :=
  match env.factQuery with
  | Except.error e =>
      (CycleOutcome.err (String.append ("error when trying to get a cat fact: ") e), [])
  | Except.ok factRows =>
    match factRows with
    | [] => (CycleOutcome.panicked rowIndexPanic, [])
    | _fact :: _ =>
      match env.subQuery with
      | Except.error e =>
          (CycleOutcome.err (String.append ("Had an error while sending emails: ") e), [])
      | Except.ok rows => sendLoop env.parses env.sendOk rows

/-- Number of send attempts in a trace. -/
def attempted (t : List (String × Bool)) : ℕ := t.length

/-- Result of an HTTP handler: an HTTP response (status code, body) or a
panic inside the handler (no response is produced). -/
inductive HandlerResult where
  | resp : ℕ → String → HandlerResult
  | panicked : String → HandlerResult
deriving DecidableEq

/-- `get_record` (src/main.rs lines 128-147), the GET /catfact handler.
Parameter: the result of the random-fact query (rows of the `fact`
column).  On query error it returns 500 with the store error text; on
success it indexes `res.rows[0]` (panics when the result set is empty) and
returns 200 with the fact (JSON encoding elided: the body is the fact). -/
def get_record (q : Except String (List String)) : HandlerResult :=
  match q with
  | Except.error e => HandlerResult.resp 500 e
  | Except.ok rows =>
    match rows with
    | [] => HandlerResult.panicked rowIndexPanic
    | f :: _ => HandlerResult.resp 200 f

/-- The SQL statement string the subscribe handler passes to the store,
verbatim from src/main.rs line 177.  Note `VALUE`, not `VALUES`: the
SQLite-dialect store (libsql/Turso) only accepts `VALUES`, so this
statement is rejected by the query engine. -/
def subscribe_sql : String := "INSERT INTO subscribers (email) VALUE (?)"

/-- `subscribe` (src/main.rs lines 168-186), the POST /subscribe handler.
Parameter `execute`: the store, taking the SQL text and the bound email
argument.  On store error it returns 500 with the store error text,
otherwise 201 (success body text elided). -/
def subscribe (execute : String → String → Except String Unit) (email : String) : HandlerResult :=
  match execute subscribe_sql email with
  | Except.error e => HandlerResult.resp 500 e
  | Except.ok _ => HandlerResult.resp 201 ("subscribed")

/- ### The daily scheduler

`scheduled_tasks` (src/main.rs lines 188-221) runs an infinite loop.  Wall
clock is modelled as a uniform timeline of nanoseconds of local civil time
(chrono's `Local::now().naive_local()` has nanosecond precision; DST
transitions are out of scope).  In the model only `sleep` and the dispatch
cycle itself consume time; the bookkeeping between them is instantaneous. -/

def NS_PER_SEC : ℕ := 1000000000

/-- Nanoseconds per local calendar day (86400 * NS_PER_SEC). -/
def NS_PER_DAY : ℕ := 86400000000000

/-- Local midnight of the day after instant `t`: the model of
`Local::now().checked_add_days(Days::new(1)).unwrap().date_naive().and_hms_opt(0, 0, 0).unwrap()`
evaluated when the wall clock reads `t`. -/
def midnightAfter (t : ℕ) : ℕ := (t / NS_PER_DAY + 1) * NS_PER_DAY

/-- `tokio::time::Duration::from_secs(d.as_secs())` applied to a duration of
`d` nanoseconds: truncation to whole seconds. -/
def truncToSecs (d : ℕ) : ℕ := d / NS_PER_SEC * NS_PER_SEC

/-- `calculate_time_diff` (src/main.rs lines 223-230):
`midnight.signed_duration_since(now).to_std().unwrap()`.  `to_std` fails on
a negative chrono duration, so the `unwrap()` panics whenever `now` is past
`midnight`; the panic is modelled as `none`. -/
def calculate_time_diff (midnight now : ℕ) : Option ℕ :=
  if now ≤ midnight then some (midnight - now) else none

/-- State of the `scheduled_tasks` loop: current wall clock, the stored
`tomorrow_midnight` target, the (most recent first) list of instants at
which a dispatch cycle was triggered, and whether the unit has panicked
(terminating the whole service through `tokio::select!`). -/
structure SchedState where
  now : ℕ
  target : ℕ
  dispatches : List ℕ
  panicked : Bool
deriving DecidableEq

/-- One iteration of the `loop` in `scheduled_tasks` (src/main.rs lines
206-218), parameterized by the outcome of the k-th dispatch cycle (`cOut`)
and its wall-clock duration in nanoseconds (`cDur`):

1. `calculate_time_diff(tomorrow_midnight)`; a `none` (panicking unwrap)
   terminates the unit.
2. if the duration is zero, run `send_subscriber_mail` under `.expect(..)`
   — a non-`ok` cycle outcome panics the unit — and recompute
   `tomorrow_midnight` from the current wall clock;
3. `calculate_time_diff` again and `sleep` for the whole-second truncation
   of the result.

A panicked state is absorbing: the loop body is never entered again. -/
def schedStep (cOut : ℕ → CycleOutcome) (cDur : ℕ → ℕ) (s : SchedState) : SchedState :=
  if s.panicked then s
  else
    match calculate_time_diff s.target s.now with
    | none => { s with panicked := true }
    | some d1 =>
      if d1 = 0 then
        match cOut s.dispatches.length with
        | CycleOutcome.ok =>
          let n1 := s.now + cDur s.dispatches.length
          match calculate_time_diff (midnightAfter n1) n1 with
          | none =>
              { now := n1, target := midnightAfter n1,
                dispatches := s.now :: s.dispatches, panicked := true }
          | some d2 =>
              { now := n1 + truncToSecs d2, target := midnightAfter n1,
                dispatches := s.now :: s.dispatches, panicked := false }
        | CycleOutcome.err _ => { s with dispatches := s.now :: s.dispatches, panicked := true }
        | CycleOutcome.panicked _ =>
            { s with dispatches := s.now :: s.dispatches, panicked := true }
      else
        match calculate_time_diff s.target s.now with
        | none => { s with panicked := true }
        | some d2 => { s with now := s.now + truncToSecs d2 }

/-- Initial scheduler state (src/main.rs line 204): started at wall-clock
`t0` with `tomorrow_midnight` = local midnight of the day after `t0`. -/
def schedInit (t0 : ℕ) : SchedState :=
  { now := t0, target := midnightAfter t0, dispatches := [], panicked := false }

/-- The scheduler after `k` loop iterations. -/
def schedRun (cOut : ℕ → CycleOutcome) (cDur : ℕ → ℕ) (t0 : ℕ) : ℕ → SchedState
  | 0 => schedInit t0
  | k + 1 => schedStep cOut cDur (schedRun cOut cDur t0 k)

/-- The wall-clock moment `T` at which the iteration starting from state
`s` calls `sleep`, together with the (untruncated) duration `D` it computed
for that sleep; `none` when the iteration panics before sleeping (or the
unit is already dead). -/
def sleepMoment (cOut : ℕ → CycleOutcome) (cDur : ℕ → ℕ) (s : SchedState) : Option (ℕ × ℕ) :=
  if s.panicked then none
  else
    match calculate_time_diff s.target s.now with
    | none => none
    | some d1 =>
      if d1 = 0 then
        match cOut s.dispatches.length with
        | CycleOutcome.ok =>
          let n1 := s.now + cDur s.dispatches.length
          match calculate_time_diff (midnightAfter n1) n1 with
          | none => none
          | some d2 => some (n1, d2)
        | _ => none
      else
        match calculate_time_diff s.target s.now with
        | none => none
        | some d2 => some (s.now, d2)

/- ### Arithmetic facts about midnights and truncation -/

theorem midnightAfter_gt (t : ℕ) : t < midnightAfter t := by
  unfold midnightAfter NS_PER_DAY
  omega

theorem midnightAfter_mod (t : ℕ) : midnightAfter t % NS_PER_DAY = 0 := by
  unfold midnightAfter NS_PER_DAY
  omega

theorem midnightAfter_le_add (t : ℕ) : midnightAfter t ≤ t + NS_PER_DAY := by
  unfold midnightAfter NS_PER_DAY
  omega

theorem midnightAfter_between (a x : ℕ) (h1 : a ≤ x) (h2 : x < midnightAfter a) :
    midnightAfter x = midnightAfter a := by
  unfold midnightAfter NS_PER_DAY at h2 ⊢
  omega

theorem multiple_between (a m : ℕ) (hm : m % NS_PER_DAY = 0) (h1 : a < m)
    (h2 : m ≤ midnightAfter a) : m = midnightAfter a := by
  unfold midnightAfter NS_PER_DAY at h2 ⊢
  unfold NS_PER_DAY at hm
  omega

theorem midnightAfter_add_lt (m0 d : ℕ) (hm : m0 % NS_PER_DAY = 0) (hd : d < NS_PER_DAY) :
    midnightAfter (m0 + d) = m0 + NS_PER_DAY := by
  unfold midnightAfter
  unfold NS_PER_DAY at hm hd ⊢
  omega

theorem truncToSecs_le (d : ℕ) : truncToSecs d ≤ d := by
  unfold truncToSecs NS_PER_SEC
  omega

theorem calculate_time_diff_of_le (m n : ℕ) (h : n ≤ m) :
    calculate_time_diff m n = some (m - n) := by
  unfold calculate_time_diff
  rw [if_pos h]

theorem calculate_time_diff_of_gt (m n : ℕ) (h : m < n) :
    calculate_time_diff m n = none := by
  unfold calculate_time_diff
  rw [if_neg (by omega)]

/- ### Case characterizations of one scheduler iteration -/

theorem schedStep_of_panicked (cOut : ℕ → CycleOutcome) (cDur : ℕ → ℕ) (s : SchedState)
    (h : s.panicked = true) : schedStep cOut cDur s = s := by
  simp [schedStep, h]

theorem schedStep_overshoot (cOut : ℕ → CycleOutcome) (cDur : ℕ → ℕ) (s : SchedState)
    (hp : s.panicked = false) (hgt : s.target < s.now) :
    schedStep cOut cDur s = { s with panicked := true } := by
  simp [schedStep, hp, calculate_time_diff_of_gt s.target s.now hgt]

theorem schedStep_sleep (cOut : ℕ → CycleOutcome) (cDur : ℕ → ℕ) (s : SchedState)
    (hp : s.panicked = false) (hlt : s.now < s.target) :
    schedStep cOut cDur s = { s with now := s.now + truncToSecs (s.target - s.now) } := by
  have h1 := calculate_time_diff_of_le s.target s.now (Nat.le_of_lt hlt)
  have h2 : ¬(s.target - s.now = 0) := by omega
  simp [schedStep, hp, h1, h2]

theorem schedStep_dispatch_ok (cOut : ℕ → CycleOutcome) (cDur : ℕ → ℕ) (s : SchedState)
    (hp : s.panicked = false) (heq : s.now = s.target)
    (hok : cOut s.dispatches.length = CycleOutcome.ok) :
    schedStep cOut cDur s =
      { now := (s.now + cDur s.dispatches.length) +
          truncToSecs (midnightAfter (s.now + cDur s.dispatches.length) -
            (s.now + cDur s.dispatches.length)),
        target := midnightAfter (s.now + cDur s.dispatches.length),
        dispatches := s.now :: s.dispatches, panicked := false } := by
  have h1 := calculate_time_diff_of_le s.target s.now (le_of_eq heq)
  have h2 : s.target - s.now = 0 := by omega
  have h3 := calculate_time_diff_of_le (midnightAfter (s.now + cDur s.dispatches.length))
    (s.now + cDur s.dispatches.length) (Nat.le_of_lt (midnightAfter_gt _))
  simp [schedStep, hp, h1, h2, hok, h3]

theorem schedStep_dispatch_fail (cOut : ℕ → CycleOutcome) (cDur : ℕ → ℕ) (s : SchedState)
    (hp : s.panicked = false) (heq : s.now = s.target)
    (hfail : cOut s.dispatches.length ≠ CycleOutcome.ok) :
    schedStep cOut cDur s = { s with dispatches := s.now :: s.dispatches, panicked := true } := by
  have h1 := calculate_time_diff_of_le s.target s.now (le_of_eq heq)
  have h2 : s.target - s.now = 0 := by omega
  cases hc : cOut s.dispatches.length with
  | ok => exact absurd hc hfail
  | err e => simp [schedStep, hp, h1, h2, hc]
  | panicked e => simp [schedStep, hp, h1, h2, hc]

theorem sleepMoment_sleep (cOut : ℕ → CycleOutcome) (cDur : ℕ → ℕ) (s : SchedState)
    (hp : s.panicked = false) (hlt : s.now < s.target) :
    sleepMoment cOut cDur s = some (s.now, s.target - s.now) := by
  have h1 := calculate_time_diff_of_le s.target s.now (Nat.le_of_lt hlt)
  have h2 : ¬(s.target - s.now = 0) := by omega
  simp [sleepMoment, hp, h1, h2]

theorem sleepMoment_dispatch_ok (cOut : ℕ → CycleOutcome) (cDur : ℕ → ℕ) (s : SchedState)
    (hp : s.panicked = false) (heq : s.now = s.target)
    (hok : cOut s.dispatches.length = CycleOutcome.ok) :
    sleepMoment cOut cDur s =
      some (s.now + cDur s.dispatches.length,
        midnightAfter (s.now + cDur s.dispatches.length) -
          (s.now + cDur s.dispatches.length)) := by
  have h1 := calculate_time_diff_of_le s.target s.now (le_of_eq heq)
  have h2 : s.target - s.now = 0 := by omega
  have h3 := calculate_time_diff_of_le (midnightAfter (s.now + cDur s.dispatches.length))
    (s.now + cDur s.dispatches.length) (Nat.le_of_lt (midnightAfter_gt _))
  simp [sleepMoment, hp, h1, h2, hok, h3]

/- ### The scheduler invariant -/

/-- Reachable-state invariant of the scheduler loop: the stored target is
always a midnight not yet passed; while the unit is alive and strictly
before the target, the target is exactly the next local midnight; recorded
dispatch instants are midnights, strictly decreasing in the list (most
recent first), and (while alive) strictly before the stored target. -/
structure SchedInv (t0 : ℕ) (s : SchedState) : Prop where
  target_mod : s.target % NS_PER_DAY = 0
  now_le : s.now ≤ s.target
  target_next : s.panicked = false → s.now < s.target → s.target = midnightAfter s.now
  disp_lt : s.panicked = false → ∀ d ∈ s.dispatches, d < s.target
  disp_mod : ∀ d ∈ s.dispatches, d % NS_PER_DAY = 0
  disp_sorted : s.dispatches.Pairwise (fun a b => b < a)
  t0_le : t0 ≤ s.now

theorem schedInv_init (t0 : ℕ) : SchedInv t0 (schedInit t0) where
  target_mod := midnightAfter_mod t0
  now_le := Nat.le_of_lt (midnightAfter_gt t0)
  target_next := fun _ _ => rfl
  disp_lt := fun _ d hd => absurd hd (List.not_mem_nil d)
  disp_mod := fun d hd => absurd hd (List.not_mem_nil d)
  disp_sorted := List.Pairwise.nil
  t0_le := le_refl t0

theorem schedInv_fail_state (t0 : ℕ) (s : SchedState) (h : SchedInv t0 s)
    (hp : s.panicked = false) (heq : s.now = s.target) :
    SchedInv t0 { s with dispatches := s.now :: s.dispatches, panicked := true } where
  target_mod := h.target_mod
  now_le := h.now_le
  target_next := fun hpf => absurd hpf (by simp)
  disp_lt := fun hpf => absurd hpf (by simp)
  disp_mod := by
    intro d hd
    rcases List.mem_cons.mp hd with hh | ht
    · rw [hh, heq]; exact h.target_mod
    · exact h.disp_mod d ht
  disp_sorted := by
    refine List.Pairwise.cons ?_ h.disp_sorted
    intro d hd
    have := h.disp_lt hp d hd
    omega
  t0_le := h.t0_le

theorem schedStep_inv (cOut : ℕ → CycleOutcome) (cDur : ℕ → ℕ) (t0 : ℕ) (s : SchedState)
    (h : SchedInv t0 s) : SchedInv t0 (schedStep cOut cDur s) := by
  cases hp : s.panicked with
  | true => rw [schedStep_of_panicked cOut cDur s hp]; exact h
  | false =>
    rcases Nat.lt_or_ge s.now s.target with hlt | hge
    · -- sleep branch: only the clock advances, staying at or before the target
      rw [schedStep_sleep cOut cDur s hp hlt]
      have htn := h.target_next hp hlt
      have htr := truncToSecs_le (s.target - s.now)
      refine ⟨h.target_mod, ?_, ?_, ?_, h.disp_mod, h.disp_sorted, ?_⟩
      · show s.now + truncToSecs (s.target - s.now) ≤ s.target
        omega
      · intro _ hlt'
        have hlt'' : s.now + truncToSecs (s.target - s.now) < midnightAfter s.now := by
          rw [← htn]; exact hlt'
        have hb := midnightAfter_between s.now (s.now + truncToSecs (s.target - s.now))
          (Nat.le_add_right _ _) hlt''
        show s.target = midnightAfter (s.now + truncToSecs (s.target - s.now))
        rw [hb]; exact htn
      · intro _ d hd
        exact h.disp_lt hp d hd
      · show t0 ≤ s.now + truncToSecs (s.target - s.now)
        have := h.t0_le
        omega
    · have heq : s.now = s.target := Nat.le_antisymm h.now_le hge
      cases hc : cOut s.dispatches.length with
      | ok =>
        rw [schedStep_dispatch_ok cOut cDur s hp heq hc]
        have hgt1 := midnightAfter_gt (s.now + cDur s.dispatches.length)
        have htr := truncToSecs_le (midnightAfter (s.now + cDur s.dispatches.length) -
          (s.now + cDur s.dispatches.length))
        refine ⟨midnightAfter_mod _, ?_, ?_, ?_, ?_, ?_, ?_⟩
        · show (s.now + cDur s.dispatches.length) +
              truncToSecs (midnightAfter (s.now + cDur s.dispatches.length) -
                (s.now + cDur s.dispatches.length)) ≤
              midnightAfter (s.now + cDur s.dispatches.length)
          omega
        · intro _ hlt'
          have hlt'' : (s.now + cDur s.dispatches.length) +
              truncToSecs (midnightAfter (s.now + cDur s.dispatches.length) -
                (s.now + cDur s.dispatches.length)) <
              midnightAfter (s.now + cDur s.dispatches.length) := hlt'
          have hb := midnightAfter_between (s.now + cDur s.dispatches.length)
            ((s.now + cDur s.dispatches.length) +
              truncToSecs (midnightAfter (s.now + cDur s.dispatches.length) -
                (s.now + cDur s.dispatches.length)))
            (Nat.le_add_right _ _) hlt''
          exact hb.symm
        · intro _ d hd
          rcases List.mem_cons.mp hd with hh | ht
          · show d < midnightAfter (s.now + cDur s.dispatches.length)
            have : s.now ≤ s.now + cDur s.dispatches.length := Nat.le_add_right _ _
            omega
          · have := h.disp_lt hp d ht
            show d < midnightAfter (s.now + cDur s.dispatches.length)
            omega
        · intro d hd
          rcases List.mem_cons.mp hd with hh | ht
          · rw [hh, heq]; exact h.target_mod
          · exact h.disp_mod d ht
        · refine List.Pairwise.cons ?_ h.disp_sorted
          intro d hd
          have := h.disp_lt hp d hd
          omega
        · show t0 ≤ (s.now + cDur s.dispatches.length) +
              truncToSecs (midnightAfter (s.now + cDur s.dispatches.length) -
                (s.now + cDur s.dispatches.length))
          have := h.t0_le
          omega
      | err e =>
        rw [schedStep_dispatch_fail cOut cDur s hp heq (by simp [hc])]
        exact schedInv_fail_state t0 s h hp heq
      | panicked e =>
        rw [schedStep_dispatch_fail cOut cDur s hp heq (by simp [hc])]
        exact schedInv_fail_state t0 s h hp heq

theorem schedRun_inv (cOut : ℕ → CycleOutcome) (cDur : ℕ → ℕ) (t0 k : ℕ) :
    SchedInv t0 (schedRun cOut cDur t0 k) := by
  induction k with
  | zero => exact schedInv_init t0
  | succ k ih => exact schedStep_inv cOut cDur t0 _ ih

/-- Coverage: every midnight the wall clock has strictly passed since start
has had its dispatch cycle triggered; the only midnight possibly reached
but not yet dispatched is the current instant itself, when the loop is
sitting exactly on its trigger time (it dispatches in the next iteration). -/
def Covered (t0 : ℕ) (s : SchedState) : Prop :=
  ∀ m, t0 < m → m ≤ s.now → m % NS_PER_DAY = 0 →
    m ∈ s.dispatches ∨ (s.panicked = false ∧ m = s.now ∧ s.now = s.target)

theorem schedStep_covered (cOut : ℕ → CycleOutcome) (cDur : ℕ → ℕ) (t0 : ℕ) (s : SchedState)
    (h : SchedInv t0 s) (hcov : Covered t0 s)
    (hd : cDur s.dispatches.length < NS_PER_DAY) :
    Covered t0 (schedStep cOut cDur s) := by
  cases hp : s.panicked with
  | true =>
    rw [schedStep_of_panicked cOut cDur s hp]
    intro m h1 h2 h3
    rcases hcov m h1 h2 h3 with hm | ⟨hpf, _⟩
    · exact Or.inl hm
    · rw [hp] at hpf; exact absurd hpf (by simp)
  | false =>
    rcases Nat.lt_or_ge s.now s.target with hlt | hge
    · -- sleep branch: the clock may advance up to the target midnight, but
      -- cannot strictly pass it
      rw [schedStep_sleep cOut cDur s hp hlt]
      intro m h1 h2 h3
      have h2' : m ≤ s.now + truncToSecs (s.target - s.now) := h2
      have htn := h.target_next hp hlt
      have htr := truncToSecs_le (s.target - s.now)
      rcases le_or_lt m s.now with hle | hgt
      · rcases hcov m h1 hle h3 with hm | ⟨_, hmn, hnt⟩
        · exact Or.inl hm
        · omega
      · have hmt : m = midnightAfter s.now := by
          refine multiple_between s.now m h3 hgt ?_
          rw [← htn]
          omega
        refine Or.inr ⟨hp, ?_, ?_⟩
        · show m = s.now + truncToSecs (s.target - s.now)
          omega
        · show s.now + truncToSecs (s.target - s.now) = s.target
          omega
    · have heq : s.now = s.target := Nat.le_antisymm h.now_le hge
      cases hc : cOut s.dispatches.length with
      | ok =>
        rw [schedStep_dispatch_ok cOut cDur s hp heq hc]
        intro m h1 h2 h3
        have hsmod : s.now % NS_PER_DAY = 0 := by rw [heq]; exact h.target_mod
        have hma : midnightAfter (s.now + cDur s.dispatches.length) = s.now + NS_PER_DAY :=
          midnightAfter_add_lt s.now (cDur s.dispatches.length) hsmod hd
        have htr := truncToSecs_le (midnightAfter (s.now + cDur s.dispatches.length) -
          (s.now + cDur s.dispatches.length))
        have h2' : m ≤ (s.now + cDur s.dispatches.length) +
            truncToSecs (midnightAfter (s.now + cDur s.dispatches.length) -
              (s.now + cDur s.dispatches.length)) := h2
        rcases le_or_lt m s.now with hle | hgt
        · rcases hcov m h1 hle h3 with hm | ⟨_, hmn, _⟩
          · exact Or.inl (List.mem_cons_of_mem _ hm)
          · rw [hmn]; exact Or.inl (List.mem_cons_self _ _)
        · have hgt1 := midnightAfter_gt (s.now + cDur s.dispatches.length)
          have hub : m ≤ s.now + NS_PER_DAY := by omega
          have hmt : m = s.now + NS_PER_DAY := by
            unfold NS_PER_DAY at hsmod h3 hub ⊢
            omega
          refine Or.inr ⟨rfl, ?_, ?_⟩
          · show m = (s.now + cDur s.dispatches.length) +
                truncToSecs (midnightAfter (s.now + cDur s.dispatches.length) -
                  (s.now + cDur s.dispatches.length))
            omega
          · show (s.now + cDur s.dispatches.length) +
                truncToSecs (midnightAfter (s.now + cDur s.dispatches.length) -
                  (s.now + cDur s.dispatches.length)) =
                midnightAfter (s.now + cDur s.dispatches.length)
            omega
      | err e =>
        rw [schedStep_dispatch_fail cOut cDur s hp heq (by simp [hc])]
        intro m h1 h2 h3
        rcases hcov m h1 h2 h3 with hm | ⟨_, hmn, _⟩
        · exact Or.inl (List.mem_cons_of_mem _ hm)
        · rw [hmn]; exact Or.inl (List.mem_cons_self _ _)
      | panicked e =>
        rw [schedStep_dispatch_fail cOut cDur s hp heq (by simp [hc])]
        intro m h1 h2 h3
        rcases hcov m h1 h2 h3 with hm | ⟨_, hmn, _⟩
        · exact Or.inl (List.mem_cons_of_mem _ hm)
        · rw [hmn]; exact Or.inl (List.mem_cons_self _ _)

theorem schedRun_covered (cOut : ℕ → CycleOutcome) (cDur : ℕ → ℕ) (t0 k : ℕ)
    (hd : ∀ j, cDur j < NS_PER_DAY) : Covered t0 (schedRun cOut cDur t0 k) := by
  induction k with
  | zero =>
    intro m h1 h2 _
    have h2' : m ≤ t0 := h2
    omega
  | succ k ih =>
    exact schedStep_covered cOut cDur t0 _ (schedRun_inv cOut cDur t0 k) ih (hd _)

theorem sleepMoment_of_panicked (cOut : ℕ → CycleOutcome) (cDur : ℕ → ℕ) (s : SchedState)
    (h : s.panicked = true) : sleepMoment cOut cDur s = none := by
  simp [sleepMoment, h]

theorem sleepMoment_dispatch_fail (cOut : ℕ → CycleOutcome) (cDur : ℕ → ℕ) (s : SchedState)
    (hp : s.panicked = false) (heq : s.now = s.target)
    (hfail : cOut s.dispatches.length ≠ CycleOutcome.ok) :
    sleepMoment cOut cDur s = none := by
  have h1 := calculate_time_diff_of_le s.target s.now (le_of_eq heq)
  have h2 : s.target - s.now = 0 := by omega
  cases hc : cOut s.dispatches.length with
  | ok => exact absurd hc hfail
  | err e => simp [sleepMoment, hp, h1, h2, hc]
  | panicked e => simp [sleepMoment, hp, h1, h2, hc]

theorem truncToSecs_lt_add (d : ℕ) : d < truncToSecs d + NS_PER_SEC := by
  unfold truncToSecs NS_PER_SEC
  omega

theorem pairwise_strict_to_days (l : List ℕ) (hmod : ∀ d ∈ l, d % NS_PER_DAY = 0)
    (hs : l.Pairwise (fun a b => b < a)) :
    l.Pairwise (fun a b => a / NS_PER_DAY ≠ b / NS_PER_DAY) := by
  induction l with
  | nil => exact List.Pairwise.nil
  | cons x xs ih =>
    rcases List.pairwise_cons.mp hs with ⟨hx, hxs⟩
    refine List.pairwise_cons.mpr
      ⟨?_, ih (fun d hd => hmod d (List.mem_cons_of_mem x hd)) hxs⟩
    intro b hb
    have h1 := hmod x (List.mem_cons_self x xs)
    have h2 := hmod b (List.mem_cons_of_mem x hb)
    have h3 := hx b hb
    unfold NS_PER_DAY at h1 h2 ⊢
    omega

/- ### Concrete environments used in counterexamples and witnesses -/

/-- A cycle environment whose fact query fails. -/
def envFactFail : MailEnv :=
  { factQuery := Except.error ("db connection lost"),
    subQuery := Except.ok [],
    parses := fun _ => true,
    sendOk := fun _ => true }

/-- A cycle environment with an empty fact table (query succeeds, zero rows). -/
def envEmptyFactTable : MailEnv :=
  { factQuery := Except.ok [],
    subQuery := Except.ok [("a@example.com")],
    parses := fun _ => true,
    sendOk := fun _ => true }

/-- Both queries succeed — one fact, two well-formed subscriber addresses
— and the mailbox parser is the faithful lettre model, under which the
hard-coded sender string does not parse. -/
def envSenderParse : MailEnv :=
  { factQuery := Except.ok [("cats sleep a lot")],
    subQuery := Except.ok [("good@example.com"), ("second@example.com")],
    parses := lettreParses,
    sendOk := fun _ => true }

/-- A nonempty fact table and zero subscribers. -/
def envNoSubscribers : MailEnv :=
  { factQuery := Except.ok [("cats meow")],
    subQuery := Except.ok [],
    parses := fun _ => true,
    sendOk := fun _ => true }

/- ### Claims -/

/-- C1 (the code violates this; the claim matches the spec's stated intent):
when the first dispatch cycle's send pipeline fails — here its fact query
errors, so `send_subscriber_mail` returns `Err` — `scheduled_tasks` does
not transition back to Waiting and schedule the next day: the `.expect(..)`
panics, the state is absorbing (five further iterations change nothing),
and the scheduler unit has terminated with that one dispatch recorded. -/
theorem scheduled_tasks_terminates_on_cycle_failure :
    (schedRun (fun _ => (send_subscriber_mail envFactFail).1) (fun _ => 0) 0 2).panicked
      = true ∧
    schedRun (fun _ => (send_subscriber_mail envFactFail).1) (fun _ => 0) 0 7 =
      schedRun (fun _ => (send_subscriber_mail envFactFail).1) (fun _ => 0) 0 2 ∧
    (schedRun (fun _ => (send_subscriber_mail envFactFail).1) (fun _ => 0) 0 2).dispatches
      = [NS_PER_DAY] := by
  refine ⟨?_, ?_, ?_⟩ <;> rfl

/-- C4: whenever the scheduler computes its sleep at wall-clock moment T,
the computed duration D satisfies T + D = the next local midnight after T,
exactly — recomputed from the current wall clock whatever the durations of
all earlier dispatch cycles were (`cDur` is arbitrary), never by a fixed
24-hour offset — and the actually slept whole-second truncation of D lands
within one second below that midnight. -/
theorem sleep_targets_next_midnight (cOut : ℕ → CycleOutcome) (cDur : ℕ → ℕ)
    (t0 k T D : ℕ)
    (h : sleepMoment cOut cDur (schedRun cOut cDur t0 k) = some (T, D)) :
    T + D = midnightAfter T ∧
    T + truncToSecs D ≤ midnightAfter T ∧
    midnightAfter T < T + truncToSecs D + NS_PER_SEC := by
  have hI := schedRun_inv cOut cDur t0 k
  set s := schedRun cOut cDur t0 k with hsdef
  have key : T + D = midnightAfter T := by
    cases hp : s.panicked with
    | true =>
      rw [sleepMoment_of_panicked cOut cDur s hp] at h
      exact Option.noConfusion h
    | false =>
      rcases lt_or_ge s.now s.target with hlt | hge
      · rw [sleepMoment_sleep cOut cDur s hp hlt] at h
        have h' := Option.some.inj h
        injection h' with h1 h2
        have htn := hI.target_next hp hlt
        have hnl := hI.now_le
        rw [← h1, ← h2]
        omega
      · have heq : s.now = s.target := Nat.le_antisymm hI.now_le hge
        cases hc : cOut s.dispatches.length with
        | ok =>
          rw [sleepMoment_dispatch_ok cOut cDur s hp heq hc] at h
          have h' := Option.some.inj h
          injection h' with h1 h2
          have hgt1 := midnightAfter_gt (s.now + cDur s.dispatches.length)
          rw [← h1, ← h2]
          omega
        | err e =>
          rw [sleepMoment_dispatch_fail cOut cDur s hp heq (by simp [hc])] at h
          exact Option.noConfusion h
        | panicked e =>
          rw [sleepMoment_dispatch_fail cOut cDur s hp heq (by simp [hc])] at h
          exact Option.noConfusion h
  have htr := truncToSecs_le D
  have htr2 := truncToSecs_lt_add D
  exact ⟨key, by omega, by omega⟩

/-- C4 witness: at start instant 0 the first iteration sleeps at T = 0 with
D = one full day, landing exactly on the next midnight. -/
theorem sleep_targets_next_midnight_witness :
    0 + NS_PER_DAY = midnightAfter 0 ∧
    0 + truncToSecs NS_PER_DAY ≤ midnightAfter 0 ∧
    midnightAfter 0 < 0 + truncToSecs NS_PER_DAY + NS_PER_SEC :=
  sleep_targets_next_midnight (fun _ => CycleOutcome.ok) (fun _ => 0) 0 0 0 NS_PER_DAY
    (by decide)

/-- C5: dispatch cycles are triggered on pairwise-distinct calendar days
(at most one per day), and over any 24-hour window that starts no earlier
than the scheduler and has fully elapsed while it runs, at least one cycle
was triggered — provided every cycle finishes within a day (a cycle
spanning a full day would skip the midnight falling inside it). -/
theorem scheduler_daily_cadence (cOut : ℕ → CycleOutcome) (cDur : ℕ → ℕ) (t0 k : ℕ)
    (hdur : ∀ j, cDur j < NS_PER_DAY) :
    (schedRun cOut cDur t0 k).dispatches.Pairwise
      (fun a b => a / NS_PER_DAY ≠ b / NS_PER_DAY) ∧
    (∀ a, t0 ≤ a → a + NS_PER_DAY < (schedRun cOut cDur t0 k).now →
      ∃ d, d ∈ (schedRun cOut cDur t0 k).dispatches ∧ a ≤ d ∧ d ≤ a + NS_PER_DAY) := by
  have hI := schedRun_inv cOut cDur t0 k
  have hC := schedRun_covered cOut cDur t0 k hdur
  constructor
  · exact pairwise_strict_to_days _ hI.disp_mod hI.disp_sorted
  · intro a ha hwin
    have h1 : a < midnightAfter a := midnightAfter_gt a
    have h2 : midnightAfter a ≤ a + NS_PER_DAY := midnightAfter_le_add a
    have h3 : midnightAfter a % NS_PER_DAY = 0 := midnightAfter_mod a
    rcases hC (midnightAfter a) (by omega) (by omega) h3 with hm | ⟨_, hmn, _⟩
    · exact ⟨midnightAfter a, hm, by omega, by omega⟩
    · omega

/-- C5 witness: started exactly at a midnight with instantaneous cycles,
after three iterations the scheduler has dispatched on two distinct days
and the first full 24-hour window contains a dispatch. -/
theorem scheduler_daily_cadence_witness :
    ((schedRun (fun _ => CycleOutcome.ok) (fun _ => 0) 0 3).dispatches.Pairwise
      (fun a b => a / NS_PER_DAY ≠ b / NS_PER_DAY)) ∧
    (∃ d, d ∈ (schedRun (fun _ => CycleOutcome.ok) (fun _ => 0) 0 3).dispatches ∧
      0 ≤ d ∧ d ≤ 0 + NS_PER_DAY) := by
  have h := scheduler_daily_cadence (fun _ => CycleOutcome.ok) (fun _ => 0) 0 3
    (fun j => show 0 < NS_PER_DAY by decide)
  exact ⟨h.1, h.2 0 (le_refl 0) (by decide)⟩

/-- C8 (the code violates this; the claim matches the spec's stated
intent): when the wall clock is one second past the stored trigger time,
`calculate_time_diff` panics (the `unwrap()` of `to_std()` fails on the
negative duration) instead of logging and retrying after a backoff, and a
scheduler iteration hitting this terminates the unit. -/
theorem calculate_time_diff_panics_when_past_target :
    calculate_time_diff NS_PER_DAY (NS_PER_DAY + NS_PER_SEC) = none ∧
    (schedStep (fun _ => CycleOutcome.ok) (fun _ => 0)
      { now := NS_PER_DAY + NS_PER_SEC, target := NS_PER_DAY,
        dispatches := [], panicked := false }).panicked = true := by
  exact ⟨by decide, by decide⟩

/-- C2 (the code violates this; the claim matches the spec's stated
intent): per-recipient delivery failures are never recovered, because the
batch never reaches any recipient: with two well-formed subscribers and
both queries succeeding, the first loop iteration panics unwrapping the
mailbox parse of the hard-coded sender "Cat Facts" (a bare display name
with no `@`, which lettre rejects), so the cycle aborts with zero send
attempts, the recipients are never tried, and the send-error branch that
logs and continues is unreachable for every nonempty batch. -/
theorem sender_parse_panic_aborts_batch :
    lettreParses fromAddress = false ∧
    send_subscriber_mail envSenderParse =
      (CycleOutcome.panicked (addrParsePanic fromAddress), []) :=
  ⟨rfl, rfl⟩

/-- C3 counterexample: with the fact table empty — the random-fact query
succeeds with zero rows — the cycle does not return a `DataFetchError`: it
panics indexing `rows[0]` (zero sends are indeed attempted). -/
theorem empty_fact_table_panics_cycle :
    send_subscriber_mail envEmptyFactTable = (CycleOutcome.panicked rowIndexPanic, []) := by
  rfl

/-- C3 as amended: if the random-fact query fails, the cycle returns the
fetch error immediately and issues zero send attempts; if the query
succeeds on an empty fact table, the cycle still issues zero send attempts
but exits by panic (`rows[0]` out of bounds), not by an error return. -/
theorem fact_fetch_failure_yields_no_sends (env env2 : MailEnv) (e : String)
    (h1 : env.factQuery = Except.error e) (h2 : env2.factQuery = Except.ok []) :
    send_subscriber_mail env =
      (CycleOutcome.err (String.append ("error when trying to get a cat fact: ") e), []) ∧
    send_subscriber_mail env2 = (CycleOutcome.panicked rowIndexPanic, []) := by
  constructor
  · unfold send_subscriber_mail
    rw [h1]
  · unfold send_subscriber_mail
    rw [h2]

/-- C3 witness: a failed query yields the error return with an empty
attempt trace; an empty table yields the panic with an empty trace. -/
theorem fact_fetch_failure_yields_no_sends_witness :
    send_subscriber_mail envFactFail =
      (CycleOutcome.err (String.append ("error when trying to get a cat fact: ")
        ("db connection lost")), []) ∧
    send_subscriber_mail envEmptyFactTable =
      (CycleOutcome.panicked rowIndexPanic, []) :=
  fact_fetch_failure_yields_no_sends envFactFail envEmptyFactTable ("db connection lost")
    rfl rfl

/-- C6 (the code violates this; the claim matches the spec's stated
intent): a cycle over a nonempty subscriber list attempts zero sends, not
N — it panics at the sender-mailbox parse before the first attempt — and
no report of attempted/succeeded/failed counts exists in any execution:
the one kind of run that does return (zero subscribers) produces the bare
`Ok(())`, which carries no counts. -/
theorem no_attempts_and_no_count_report :
    attempted (send_subscriber_mail envSenderParse).2 = 0 ∧
    (send_subscriber_mail envSenderParse).1 =
      CycleOutcome.panicked (addrParsePanic fromAddress) ∧
    send_subscriber_mail envNoSubscribers = (CycleOutcome.ok, []) :=
  ⟨rfl, rfl, rfl⟩

/-- C7: when the fact fetch succeeds (at least one row) and the subscriber
list is empty, the cycle returns success with an empty attempt trace: a
no-op send phase, not an error. -/
theorem empty_subscriber_list_is_noop_success (env : MailEnv) (fact : String)
    (factRest : List String)
    (hf : env.factQuery = Except.ok (fact :: factRest))
    (hs : env.subQuery = Except.ok []) :
    send_subscriber_mail env = (CycleOutcome.ok, []) := by
  unfold send_subscriber_mail
  rw [hf, hs]
  rfl

/-- C7 witness: a one-fact table and zero subscribers complete as a no-op. -/
theorem empty_subscriber_list_is_noop_success_witness :
    send_subscriber_mail envNoSubscribers = (CycleOutcome.ok, []) :=
  empty_subscriber_list_is_noop_success envNoSubscribers ("cats meow") [] rfl rfl

/-- C9 (code bug): the statement the handler hands the store is the
malformed `INSERT INTO subscribers (email) VALUE (?)` — the SQLite-dialect
store in use accepts only `VALUES`, so it rejects every insert — and with
the store rejecting it the handler answers 500 carrying the store's error
text verbatim; only with a store that accepts the statement would it
answer 201.  So in production no row is ever inserted and no 201 ever
returned, contradicting the claimed insert-then-201 behavior. -/
theorem subscribe_sends_malformed_sql :
    subscribe_sql = ("INSERT INTO subscribers (email) VALUE (?)") ∧
    subscribe (fun _ _ => Except.error ("near VALUE: syntax error")) ("user@example.com") =
      HandlerResult.resp 500 ("near VALUE: syntax error") ∧
    subscribe (fun _ _ => Except.ok ()) ("user@example.com") =
      HandlerResult.resp 201 ("subscribed") :=
  ⟨rfl, rfl, rfl⟩

/-- C10: on an empty catfacts table the GET /catfact query succeeds with
zero rows and the handler panics indexing `rows[0]` — no HTTP response of
any status is produced for this public endpoint. -/
theorem get_record_panics_on_empty_table :
    get_record (Except.ok []) = HandlerResult.panicked rowIndexPanic := rfl

end CatFacts
